import Mathlib

/-!
Shallow embedding of the fine-tuning notebook `Llama-finetuning1.ipynb`.

The notebook is glue code around library calls; the embedding models the
control flow and the data transformations the notebook itself performs:
exception handling, the action trace of the training pipeline, tokenizer
configuration, fixed-length tokenization, the train/eval split, and the
loss-curve extraction. Library internals (quantized weights, attention,
backpropagation) are abstracted as opaque-but-pure parameters of the
environment.
-/

/-- Python exceptions that can arise in the notebook, by class. -/
inductive Exc where
  | runtimeError (msg : String)
  | importError (msg : String)
  | nvmlError (msg : String)
  | otherError (msg : String)
deriving DecidableEq, Repr

/-- Test `isinstance(e, RuntimeError)` — the only class caught by
`train_with_memory_optimization`. -/
def Exc.isRuntimeError : Exc → Bool
  | .runtimeError _ => true
  | _ => false

/-! ## `optimize_memory` / `print_gpu_utilization` (cell 3)

The inner function wraps the whole NVML interaction (the `pynvml` module
load, `nvmlInit`, the inner `try`/`except Exception`/`finally
nvmlShutdown()` around the device query) in one `try` whose only handler is
`except ImportError`, which prints the PyTorch fallback numbers.
The environment records which library calls fail; the result is the list of
observable events together with normal return or a propagated exception. -/
structure NvmlEnv where
  pynvmlAvailable : Bool
  initFails : Bool
  queryFails : Bool
  shutdownFails : Bool
deriving DecidableEq, Repr

/-- Observable events of `print_gpu_utilization`. -/
inductive GpuEvent where
  | printedMemInfo
  | printedQueryError
  | nvmlShutdownCalled
  | printedFallback
deriving DecidableEq, Repr

/-- Semantics of `print_gpu_utilization` under a given `NvmlEnv`.

* missing module: `import pynvml` raises `ImportError`, caught by the outer
  handler, which prints the PyTorch fallback;
* `nvmlInit` failing raises `pynvml.NVMLError`, which is NOT an
  `ImportError`, so the outer handler does not catch it and it propagates;
* once `nvmlInit` succeeded, a device-query failure is caught by the inner
  `except Exception` and printed, and the `finally` branch always calls
  `nvmlShutdown`; a failure of `nvmlShutdown` itself propagates past the
  outer `except ImportError`. -/
def print_gpu_utilization (nv : NvmlEnv) : List GpuEvent × Except Exc Unit :=
  if nv.pynvmlAvailable = false then
    ([GpuEvent.printedFallback], Except.ok ())
  else if nv.initFails then
    ([], Except.error (Exc.nvmlError "nvmlInit failed"))
  else
    let events :=
      (if nv.queryFails then [GpuEvent.printedQueryError]
       else [GpuEvent.printedMemInfo]) ++ [GpuEvent.nvmlShutdownCalled]
    if nv.shutdownFails then (events, Except.error (Exc.nvmlError "nvmlShutdown failed"))
    else (events, Except.ok ())

/-! ## Tokenizer (cell 5) -/

/-- The slice of a Hugging Face tokenizer the notebook configures and uses:
special-token ids, the padding configuration, and the raw text encoding
(an arbitrary pure function standing for the model-specific vocabulary). -/
structure Tokenizer where
  bos_token : Nat
  eos_token : Nat
  pad_token : Option Nat
  padding_side : String
  add_bos_token : Bool
  add_eos_token : Bool
  encode : String → List Nat

/--
```python
def create_efficient_tokenizer(model_id):
    tokenizer = AutoTokenizer.from_pretrained(model_id, use_fast=True,
                                              add_eos_token=True, add_bos_token=True)
    tokenizer.pad_token = tokenizer.eos_token
    tokenizer.padding_side = "right"
    return tokenizer
```
`from_pretrained` is an arbitrary function of the model id and the three
keyword flags (`use_fast`, `add_eos_token`, `add_bos_token`). -/
def create_efficient_tokenizer (from_pretrained : String → Bool → Bool → Bool → Tokenizer)
    (model_id : String) : Tokenizer :=
  let tokenizer := from_pretrained model_id true true true
  let tokenizer := { tokenizer with pad_token := some tokenizer.eos_token }
  { tokenizer with padding_side := "right" }

/-- Encoding of one raw text: special tokens per the tokenizer flags around
the raw vocabulary encoding. -/
def Tokenizer.encodeOne (tok : Tokenizer) (text : String) : List Nat :=
  (if tok.add_bos_token then [tok.bos_token] else []) ++
    tok.encode text ++
    (if tok.add_eos_token then [tok.eos_token] else [])

/-- The call `tokenizer(text, truncation=..., padding=..., max_length=...)`: encode,
then truncate to `max_length` if requested, then (for `padding='max_length'`)
pad with `pad_token` on `padding_side` up to `max_length`. -/
def Tokenizer.call (tok : Tokenizer) (truncation : Bool) (padding : String)
    (max_length : Nat) (text : String) : List Nat :=
  let ids := tok.encodeOne text
  let ids := if truncation then ids.take max_length else ids
  if padding = "max_length" then
    let padTok := tok.pad_token.getD tok.eos_token
    if tok.padding_side = "left" then
      List.replicate (max_length - ids.length) padTok ++ ids
    else
      ids ++ List.replicate (max_length - ids.length) padTok
  else ids

/-! ## Dataset tokenization (cell 6) -/

/-- One step of a linear congruential generator (64-bit). -/
def lcg (s : Nat) : Nat := (6364136223846793005 * s + 1442695040888963407) % 2 ^ 64

/-- Fisher–Yates-style seeded permutation with explicit fuel; a concrete
deterministic model of the library shuffle. -/
def seededPerm : Nat → Nat → List α → List α
  | _, 0, xs => xs
  | s, fuel + 1, xs =>
    match xs.length with
    | 0 => xs
    | _ + 1 =>
      let i := s % xs.length
      match xs.get? i with
      | none => xs
      | some a => a :: seededPerm (lcg s) fuel (xs.eraseIdx i)

/-- Model of `dataset.shuffle(seed=...)`: with an explicit seed the permutation is a
function of the seed alone; with `seed=None` the library would draw from the
process entropy instead. -/
def datasetShuffle (seed : Option Nat) (entropy : Nat) (xs : List α) : List α :=
  match seed with
  | some s => seededPerm s xs.length xs
  | none => seededPerm entropy xs.length xs

/-- The inner `tokenize_function` of `create_efficient_dataset`:
`tokenizer(examples['text'], truncation=True, padding='max_length',
max_length=max_length, return_tensors='pt')`, per example. -/
def tokenize_function (tok : Tokenizer) (max_length : Nat) (text : String) : List Nat :=
  Tokenizer.call tok true "max_length" max_length text

/--
```python
def create_efficient_dataset(dataset, tokenizer, max_length=512):
    def tokenize_function(examples): ...
    dataset = dataset.shuffle(seed=42)
    tokenized_dataset = dataset.map(tokenize_function, batched=True, ...)
    return tokenized_dataset
```
The default `max_length` is 512; batching (`batched=True`, `batch_size=1000`,
`num_proc=4`) does not change the per-example result or the order, so `map`
models it. `entropy` is the process randomness that `shuffle` would consume
were the seed absent. -/
def create_efficient_dataset (entropy : Nat) (dataset : List String)
    (tokenizer : Tokenizer) (max_length : Nat) : List (List Nat) :=
  let dataset := datasetShuffle (some 42) entropy dataset
  dataset.map (tokenize_function tokenizer max_length)

/-! ## Train/eval split (cell 10, lines 332–333) -/

/-- Model of `dataset.select(range(lo, hi))`. -/
def selectRange (xs : List α) (lo hi : Nat) : List α := (xs.drop lo).take (hi - lo)

/-- Value of `int(n * 0.8)` for a dataset size `n`: the floor of `0.8 * n`,
i.e. `4 * n / 5` in natural division. -/
def trainCount (n : Nat) : Nat := 4 * n / 5

/--
```python
train_dataset = tokenized_dataset.select(range(int(len(tokenized_dataset)*0.8)))
eval_dataset  = tokenized_dataset.select(range(int(len(tokenized_dataset)*0.8),
                                               len(tokenized_dataset)))
```
-/
def trainEvalSplit (xs : List α) : List α × List α :=
  (selectRange xs 0 (trainCount xs.length),
   selectRange xs (trainCount xs.length) xs.length)

/-! ## Loss-curve extraction (cell 13) -/

/-- A `trainer.state.log_history` entry, modelled as a Python dict from
string keys to (numeric) values. -/
def LogEntry := List (String × ℚ)

/-- Test `'loss' in entry`. -/
def LogEntry.hasLoss (entry : LogEntry) : Bool :=
  (List.lookup "loss" entry).isSome

/-- Subscript `entry['loss']` (defined only on entries that contain the key;
the default is never reached on the filtered list). -/
def LogEntry.lossValue (entry : LogEntry) : ℚ :=
  (List.lookup "loss" entry).getD 0

/-- Cell 13: `training_losses = [entry['loss'] for entry in
trainer.state.log_history if 'loss' in entry]`. -/
def training_losses (log_history : List LogEntry) : List ℚ :=
  (log_history.filter (fun entry => entry.hasLoss)).map (fun entry => entry.lossValue)

/-! ## Configuration objects (cells 4, 7, 10) -/

/-- The `BitsAndBytesConfig(...)` of `load_model_with_minimal_memory`. -/
structure BitsAndBytesConfig where
  load_in_4bit : Bool
  bnb_4bit_quant_type : String
  bnb_4bit_compute_dtype : String
  bnb_4bit_use_double_quant : Bool
deriving DecidableEq, Repr

/-- The loading configuration of `AutoModelForCausalLM.from_pretrained` as
issued by `load_model_with_minimal_memory`, together with the requested id. -/
structure Model where
  model_id : String
  quantization_config : BitsAndBytesConfig
  device_map : String
  torch_dtype : String
  low_cpu_mem_usage : Bool
  attn_implementation : String
  use_cache : Bool
deriving DecidableEq, Repr

/--
```python
def load_model_with_minimal_memory(model_id):
    bnb_config = BitsAndBytesConfig(load_in_4bit=True, bnb_4bit_quant_type="nf4",
        bnb_4bit_compute_dtype=torch.bfloat16, bnb_4bit_use_double_quant=True)
    model = AutoModelForCausalLM.from_pretrained(model_id,
        quantization_config=bnb_config, device_map="auto",
        torch_dtype=torch.bfloat16, low_cpu_mem_usage=True,
        attn_implementation="flash_attention_2", use_cache=False)
    return model
```
-/
def load_model_with_minimal_memory (model_id : String) : Model :=
  let bnb_config : BitsAndBytesConfig :=
    { load_in_4bit := true
      bnb_4bit_quant_type := "nf4"
      bnb_4bit_compute_dtype := "bfloat16"
      bnb_4bit_use_double_quant := true }
  { model_id := model_id
    quantization_config := bnb_config
    device_map := "auto"
    torch_dtype := "bfloat16"
    low_cpu_mem_usage := true
    attn_implementation := "flash_attention_2"
    use_cache := false }

/-- The `LoraConfig(...)` of `train_with_memory_optimization`. -/
structure LoraConfig where
  task_type : String
  r : Nat
  lora_alpha : Nat
  lora_dropout : ℚ
  target_modules : List String
deriving DecidableEq, Repr

/-- The LoRA-wrapped model: `get_peft_model(prepare_model_for_kbit_training(m), cfg)`. -/
structure PeftModel where
  base : Model
  peft_config : LoraConfig
  prepared_for_kbit : Bool
deriving DecidableEq, Repr

/-- The `TrainingArguments(...)` fields set by the notebook. -/
structure TrainingArguments where
  output_dir : String
  per_device_train_batch_size : Nat
  gradient_accumulation_steps : Nat
  gradient_checkpointing : Bool
  learning_rate : ℚ
  weight_decay : ℚ
  max_grad_norm : ℚ
  max_steps : Nat
  fp16 : Bool
  bf16 : Bool
  optim : String
  logging_dir : String
  logging_strategy : String
  logging_steps : Nat
  evaluation_strategy : String
  eval_steps : Nat
  save_total_limit : Nat
  load_best_model_at_end : Bool
  metric_for_best_model : String
  dataloader_num_workers : Nat
  dataloader_prefetch_factor : Nat
deriving DecidableEq, Repr

/-- Body of `create_memory_optimized_training_args()` (cell 7), value for value. -/
def create_memory_optimized_training_args : TrainingArguments :=
  { output_dir := "./llama2_finetune"
    per_device_train_batch_size := 4
    gradient_accumulation_steps := 250
    gradient_checkpointing := true
    learning_rate := 1 / 10000
    weight_decay := 1 / 100
    max_grad_norm := 3 / 10
    max_steps := 50
    fp16 := true
    bf16 := false
    optim := "adamw_torch_fused"
    logging_dir := "./logs"
    logging_strategy := "steps"
    logging_steps := 10
    evaluation_strategy := "steps"
    eval_steps := 50
    save_total_limit := 3
    load_best_model_at_end := true
    metric_for_best_model := "eval_loss"
    dataloader_num_workers := 4
    dataloader_prefetch_factor := 2 }

/-- The `DataCollatorForLanguageModeling(tokenizer=tokenizer, mlm=False)`. -/
structure DataCollator where
  tokenizer : Tokenizer
  mlm : Bool

/-- The `Trainer(...)` object; `interrupted` records whether the run went
through the `except RuntimeError` branch. -/
structure Trainer where
  model : PeftModel
  args : TrainingArguments
  train_dataset : List (List Nat)
  eval_dataset : List (List Nat)
  data_collator : DataCollator
  interrupted : Bool

/-! ## The training pipeline (cell 10) -/

/-- The stages of `train_with_memory_optimization`, in source order. -/
inductive Stage where
  | optimizeMemory
  | loadModel
  | loadTokenizer
  | buildLoraModel
  | loadDataset
  | tokenizeDataset
  | splitDataset
  | buildTrainingArgs
  | buildCollator
  | buildTrainer
  | train
  | saveFinal
deriving DecidableEq, Repr

/-- Position of a stage in the source order. -/
def stageIdx : Stage → Nat
  | .optimizeMemory => 0
  | .loadModel => 1
  | .loadTokenizer => 2
  | .buildLoraModel => 3
  | .loadDataset => 4
  | .tokenizeDataset => 5
  | .splitDataset => 6
  | .buildTrainingArgs => 7
  | .buildCollator => 8
  | .buildTrainer => 9
  | .train => 10
  | .saveFinal => 11

/-- The source order of the stages as a list. -/
def stageOrder : List Stage :=
  [.optimizeMemory, .loadModel, .loadTokenizer, .buildLoraModel, .loadDataset,
   .tokenizeDataset, .splitDataset, .buildTrainingArgs, .buildCollator,
   .buildTrainer, .train, .saveFinal]

/-- Externally observable actions of one pipeline run. -/
inductive Act where
  | ranStage (s : Stage)
  | requestedModel (id : String)
  | requestedDataset (name split : String)
  | savedModel (path : String)
deriving DecidableEq, Repr

/-- The execution environment of one run: which stage raises which exception
(the library calls of a stage may fail), whether the partial-model save
inside the `except RuntimeError` handler fails, the pretrained-tokenizer
lookup, the hub dataset lookup, and the process entropy an unseeded shuffle
would consume. -/
structure Env where
  fail : Stage → Option Exc
  handlerSaveFail : Option Exc
  from_pretrained : String → Bool → Bool → Bool → Tokenizer
  hubDataset : String → String → List String
  entropy : Nat

/-- Result of one run: the trace of actions and either the returned trainer
or the propagated exception. -/
structure RunResult where
  trace : List Act
  result : Except Exc Trainer

/-- Constant `MODEL_ID = "meta-llama/Llama-2-7b-hf"` (cell 10). -/
def MODEL_ID : String := "meta-llama/Llama-2-7b-hf"

/--
`train_with_memory_optimization()` (cell 10): the linear pipeline.  Each
stage first appears in the trace, then either raises (the run ends with the
exception propagating — the single `try` block only wraps `trainer.train()`
and only catches `RuntimeError`) or its source expression is evaluated.
-/
def train_with_memory_optimization (env : Env) : RunResult :=
  let tr := [Act.ranStage Stage.optimizeMemory]
  match env.fail Stage.optimizeMemory with
  | some e => { trace := tr, result := Except.error e }
  | none =>
  let tr := tr ++ [Act.ranStage Stage.loadModel, Act.requestedModel MODEL_ID]
  match env.fail Stage.loadModel with
  | some e => { trace := tr, result := Except.error e }
  | none =>
  let model := load_model_with_minimal_memory MODEL_ID
  let tr := tr ++ [Act.ranStage Stage.loadTokenizer]
  match env.fail Stage.loadTokenizer with
  | some e => { trace := tr, result := Except.error e }
  | none =>
  let tokenizer := create_efficient_tokenizer env.from_pretrained MODEL_ID
  let tr := tr ++ [Act.ranStage Stage.buildLoraModel]
  match env.fail Stage.buildLoraModel with
  | some e => { trace := tr, result := Except.error e }
  | none =>
  let peft_config : LoraConfig :=
    { task_type := "CAUSAL_LM"
      r := 16
      lora_alpha := 32
      lora_dropout := 1 / 10
      target_modules := ["q_proj", "k_proj", "v_proj", "o_proj", "gate_proj",
                         "down_proj", "up_proj"] }
  let peftModel : PeftModel :=
    { base := model, peft_config := peft_config, prepared_for_kbit := true }
  let tr := tr ++ [Act.ranStage Stage.loadDataset,
                   Act.requestedDataset "imdb" "train+test"]
  match env.fail Stage.loadDataset with
  | some e => { trace := tr, result := Except.error e }
  | none =>
  let dataset := env.hubDataset "imdb" "train+test"
  let tr := tr ++ [Act.ranStage Stage.tokenizeDataset]
  match env.fail Stage.tokenizeDataset with
  | some e => { trace := tr, result := Except.error e }
  | none =>
  let tokenized_dataset := create_efficient_dataset env.entropy dataset tokenizer 512
  let tr := tr ++ [Act.ranStage Stage.splitDataset]
  match env.fail Stage.splitDataset with
  | some e => { trace := tr, result := Except.error e }
  | none =>
  let train_dataset := (trainEvalSplit tokenized_dataset).1
  let eval_dataset := (trainEvalSplit tokenized_dataset).2
  let tr := tr ++ [Act.ranStage Stage.buildTrainingArgs]
  match env.fail Stage.buildTrainingArgs with
  | some e => { trace := tr, result := Except.error e }
  | none =>
  let training_args := create_memory_optimized_training_args
  let tr := tr ++ [Act.ranStage Stage.buildCollator]
  match env.fail Stage.buildCollator with
  | some e => { trace := tr, result := Except.error e }
  | none =>
  let data_collator : DataCollator := { tokenizer := tokenizer, mlm := false }
  let tr := tr ++ [Act.ranStage Stage.buildTrainer]
  match env.fail Stage.buildTrainer with
  | some e => { trace := tr, result := Except.error e }
  | none =>
  let trainer : Trainer :=
    { model := peftModel
      args := training_args
      train_dataset := train_dataset
      eval_dataset := eval_dataset
      data_collator := data_collator
      interrupted := false }
  let tr := tr ++ [Act.ranStage Stage.train]
  match env.fail Stage.train with
  | some e =>
    match e with
    | Exc.runtimeError _ =>
      -- except RuntimeError: print, trainer.save_model("./partial_model"), return trainer
      (match env.handlerSaveFail with
       | some e2 => { trace := tr, result := Except.error e2 }
       | none =>
         { trace := tr ++ [Act.savedModel "./partial_model"]
           result := Except.ok { trainer with interrupted := true } })
    | _ => { trace := tr, result := Except.error e }
  | none =>
  -- trainer.save_model("./final_llama2_model"); return trainer
  let tr := tr ++ [Act.ranStage Stage.saveFinal]
  match env.fail Stage.saveFinal with
  | some e => { trace := tr, result := Except.error e }
  | none =>
  { trace := tr ++ [Act.savedModel "./final_llama2_model"]
    result := Except.ok trainer }

/-- The stages a run executed, in order, read off its trace. -/
def stagesOf (r : RunResult) : List Stage :=
  r.trace.filterMap fun a =>
    match a with
    | Act.ranStage s => some s
    | _ => none

/-! ## Concrete witness data -/

/-- A concrete tokenizer, standing for the result of a pretrained lookup. -/
def tok0 : Tokenizer :=
  { bos_token := 1
    eos_token := 2
    pad_token := none
    padding_side := "left"
    add_bos_token := true
    add_eos_token := true
    encode := fun t => List.replicate t.length 5 }

/-- A concrete failure-free environment. -/
def env0 : Env :=
  { fail := fun _ => none
    handlerSaveFail := none
    from_pretrained := fun _ _ _ _ => tok0
    hubDataset := fun _ _ => ["good movie", "bad movie", "fine", "x", "yz", "abc"]
    entropy := 0 }

/-! ## Claim theorems -/

/-- Every call of the tokenizer with `truncation=True` and
`padding='max_length'` yields exactly `max_length` tokens. -/
theorem tokenize_function_length (tok : Tokenizer) (max_length : Nat) (text : String) :
    (tokenize_function tok max_length text).length = max_length := by
  simp only [tokenize_function, Tokenizer.call, if_true]
  split <;> simp [List.length_take]

/-- C4: every example tokenized by `create_efficient_dataset` is truncated
and padded to exactly `max_length` tokens (512 at the notebook's default),
so all examples of the tokenized dataset have the same length. -/
theorem c4_fixed_length_tokenization (tok : Tokenizer) (text : String) :
    (tokenize_function tok 512 text).length = 512 ∧
    ∀ entropy dataset ex, ex ∈ create_efficient_dataset entropy dataset tok 512 →
      ex.length = 512 := by
  refine ⟨tokenize_function_length tok 512 text, ?_⟩
  intro entropy dataset ex hex
  simp only [create_efficient_dataset, List.mem_map] at hex
  obtain ⟨t, -, rfl⟩ := hex
  exact tokenize_function_length tok 512 t

/-- C4 witness: a concrete text and dataset. -/
theorem c4_fixed_length_tokenization_witness :
    (tokenize_function tok0 512 "some review").length = 512 ∧
    ∀ entropy dataset ex, ex ∈ create_efficient_dataset entropy dataset tok0 512 →
      ex.length = 512 :=
  c4_fixed_length_tokenization tok0 "some review"

/-- C5: the train/eval split takes the first `int(0.8 * n)` examples as
`train_dataset` and the remaining ones as `eval_dataset`; the two pieces are
a partition of the tokenized dataset. -/
theorem c5_train_eval_partition (xs : List (List Nat)) :
    (trainEvalSplit xs).1 = xs.take (4 * xs.length / 5) ∧
    (trainEvalSplit xs).2 = xs.drop (4 * xs.length / 5) ∧
    (trainEvalSplit xs).1 ++ (trainEvalSplit xs).2 = xs ∧
    (trainEvalSplit xs).1.length = 4 * xs.length / 5 ∧
    (trainEvalSplit xs).2.length = xs.length - 4 * xs.length / 5 := by
  have hk : 4 * xs.length / 5 ≤ xs.length := by omega
  have h1 : (trainEvalSplit xs).1 = xs.take (4 * xs.length / 5) := by
    simp [trainEvalSplit, selectRange, trainCount]
  have h2 : (trainEvalSplit xs).2 = xs.drop (4 * xs.length / 5) := by
    simp only [trainEvalSplit, selectRange, trainCount]
    exact List.take_of_length_le (by simp)
  refine ⟨h1, h2, ?_, ?_, ?_⟩
  · rw [h1, h2]; exact List.take_append_drop _ xs
  · rw [h1]; simp [List.length_take]; omega
  · rw [h2]; simp [List.length_drop]

/-- C8: `training_losses` is exactly the in-order sequence of `'loss'`
values of those `log_history` entries that contain the key. -/
theorem c8_training_losses (log_history : List LogEntry) :
    training_losses log_history =
      log_history.filterMap (fun entry => List.lookup "loss" entry) := by
  induction log_history with
  | nil => rfl
  | cons entry rest ih =>
    simp only [training_losses] at ih ⊢
    rw [List.filter_cons, List.filterMap_cons]
    cases h : List.lookup "loss" entry with
    | none =>
      have hh : entry.hasLoss = false := by simp [LogEntry.hasLoss, h]
      simp [hh, ih]
    | some v =>
      have hh : entry.hasLoss = true := by simp [LogEntry.hasLoss, h]
      have hv : entry.lossValue = v := by simp [LogEntry.lossValue, h]
      simp [hh, hv, ih]

/-- C10: for every pretrained lookup and model id, the tokenizer built by
`create_efficient_tokenizer` has `pad_token == eos_token` and
`padding_side == "right"`, so fixed-length padding appends end-of-sequence
tokens on the right of the truncated encoding. -/
theorem c10_tokenizer_pads_right_with_eos
    (from_pretrained : String → Bool → Bool → Bool → Tokenizer) (model_id : String) :
    (create_efficient_tokenizer from_pretrained model_id).pad_token =
      some (create_efficient_tokenizer from_pretrained model_id).eos_token ∧
    (create_efficient_tokenizer from_pretrained model_id).padding_side = "right" ∧
    ∀ max_length text,
      tokenize_function (create_efficient_tokenizer from_pretrained model_id)
          max_length text =
        ((create_efficient_tokenizer from_pretrained model_id).encodeOne text).take
            max_length ++
          List.replicate
            (max_length -
              (((create_efficient_tokenizer from_pretrained model_id).encodeOne
                  text).take max_length).length)
            (create_efficient_tokenizer from_pretrained model_id).eos_token := by
  refine ⟨rfl, rfl, ?_⟩
  intro max_length text
  rfl

/-- C9: the shuffle seed is the constant 42, so the tokenized dataset and
the whole pipeline run are independent of the process entropy: two
environments equal except for their entropy produce the same shuffled order,
the same tokenized dataset, the same train/eval split, and the same run. -/
theorem c9_deterministic_preprocessing (env1 env2 : Env)
    (hfail : env1.fail = env2.fail)
    (hpsf : env1.handlerSaveFail = env2.handlerSaveFail)
    (hfp : env1.from_pretrained = env2.from_pretrained)
    (hhub : env1.hubDataset = env2.hubDataset) :
    (∀ dataset tokenizer max_length,
      create_efficient_dataset env1.entropy dataset tokenizer max_length =
        create_efficient_dataset env2.entropy dataset tokenizer max_length) ∧
    (∀ dataset tokenizer max_length,
      trainEvalSplit (create_efficient_dataset env1.entropy dataset tokenizer max_length) =
        trainEvalSplit (create_efficient_dataset env2.entropy dataset tokenizer max_length)) ∧
    train_with_memory_optimization env1 = train_with_memory_optimization env2 := by
  obtain ⟨f1, p1, fp1, hub1, e1⟩ := env1
  obtain ⟨f2, p2, fp2, hub2, e2⟩ := env2
  simp only at hfail hpsf hfp hhub
  subst hfail hpsf hfp hhub
  exact ⟨fun _ _ _ => rfl, fun _ _ _ => rfl, rfl⟩

/-- C9 witness: two concrete environments differing only in entropy. -/
theorem c9_deterministic_preprocessing_witness :
    env0.fail = { env0 with entropy := 57 }.fail ∧
    env0.handlerSaveFail = { env0 with entropy := 57 }.handlerSaveFail ∧
    env0.from_pretrained = { env0 with entropy := 57 }.from_pretrained ∧
    env0.hubDataset = { env0 with entropy := 57 }.hubDataset ∧
    ((∀ dataset tokenizer max_length,
      create_efficient_dataset env0.entropy dataset tokenizer max_length =
        create_efficient_dataset ({ env0 with entropy := 57 } : Env).entropy dataset
          tokenizer max_length) ∧
    (∀ dataset tokenizer max_length,
      trainEvalSplit (create_efficient_dataset env0.entropy dataset tokenizer max_length) =
        trainEvalSplit (create_efficient_dataset ({ env0 with entropy := 57 } : Env).entropy
          dataset tokenizer max_length)) ∧
    train_with_memory_optimization env0 =
      train_with_memory_optimization { env0 with entropy := 57 }) :=
  ⟨rfl, rfl, rfl, rfl,
    c9_deterministic_preprocessing env0 { env0 with entropy := 57 } rfl rfl rfl rfl⟩

/-- C7 counterexample: when `pynvml` imports fine but `nvmlInit` itself
fails, the raised `NVMLError` is not an `ImportError`, the outer handler
does not catch it, and the error propagates out of `print_gpu_utilization` —
refuting the claim that the NVML query never propagates an error. -/
theorem c7_counterexample_init_failure :
    (print_gpu_utilization
        { pynvmlAvailable := true, initFails := true,
          queryFails := false, shutdownFails := false }).2 =
      Except.error (Exc.nvmlError "nvmlInit failed") ∧
    (print_gpu_utilization
        { pynvmlAvailable := true, initFails := true,
          queryFails := false, shutdownFails := false }).2 ≠ Except.ok () := by
  exact ⟨rfl, by simp [print_gpu_utilization]⟩

/-- C7 (amended): provided `nvmlShutdown` itself does not fail, a missing
`pynvml` module makes `print_gpu_utilization` fall back to PyTorch memory
reporting with no error; and whenever `nvmlInit` succeeds, the run returns
normally, `nvmlShutdown` is always executed (via the `finally` branch) on
both the success and the failure path of the device query, and a failing
query has its exception caught and printed. An error raised by `nvmlInit`
itself propagates (it is not an `ImportError`), as does one raised by
`nvmlShutdown`. -/
theorem c7_amended_nvml_handling (nv : NvmlEnv) (hshut : nv.shutdownFails = false) :
    (nv.pynvmlAvailable = false →
      print_gpu_utilization nv = ([GpuEvent.printedFallback], Except.ok ())) ∧
    (nv.pynvmlAvailable = true → nv.initFails = false →
      GpuEvent.nvmlShutdownCalled ∈ (print_gpu_utilization nv).1 ∧
      (print_gpu_utilization nv).2 = Except.ok () ∧
      (nv.queryFails = true →
        GpuEvent.printedQueryError ∈ (print_gpu_utilization nv).1) ∧
      (nv.queryFails = false →
        GpuEvent.printedMemInfo ∈ (print_gpu_utilization nv).1)) := by
  obtain ⟨a, i, q, s⟩ := nv
  simp only at hshut
  subst hshut
  cases a <;> cases i <;> cases q <;> simp [print_gpu_utilization]

/-- C7 witness: NVML initializes, the device query fails, shutdown works. -/
theorem c7_amended_nvml_handling_witness :
    ({ pynvmlAvailable := true, initFails := false,
       queryFails := true, shutdownFails := false } : NvmlEnv).shutdownFails = false ∧
    ((({ pynvmlAvailable := true, initFails := false,
         queryFails := true, shutdownFails := false } : NvmlEnv).pynvmlAvailable = false →
      print_gpu_utilization
          { pynvmlAvailable := true, initFails := false,
            queryFails := true, shutdownFails := false } =
        ([GpuEvent.printedFallback], Except.ok ())) ∧
    (({ pynvmlAvailable := true, initFails := false,
        queryFails := true, shutdownFails := false } : NvmlEnv).pynvmlAvailable = true →
      ({ pynvmlAvailable := true, initFails := false,
         queryFails := true, shutdownFails := false } : NvmlEnv).initFails = false →
      GpuEvent.nvmlShutdownCalled ∈
        (print_gpu_utilization
          { pynvmlAvailable := true, initFails := false,
            queryFails := true, shutdownFails := false }).1 ∧
      (print_gpu_utilization
          { pynvmlAvailable := true, initFails := false,
            queryFails := true, shutdownFails := false }).2 = Except.ok () ∧
      (({ pynvmlAvailable := true, initFails := false,
          queryFails := true, shutdownFails := false } : NvmlEnv).queryFails = true →
        GpuEvent.printedQueryError ∈
          (print_gpu_utilization
            { pynvmlAvailable := true, initFails := false,
              queryFails := true, shutdownFails := false }).1) ∧
      (({ pynvmlAvailable := true, initFails := false,
          queryFails := true, shutdownFails := false } : NvmlEnv).queryFails = false →
        GpuEvent.printedMemInfo ∈
          (print_gpu_utilization
            { pynvmlAvailable := true, initFails := false,
              queryFails := true, shutdownFails := false }).1))) :=
  ⟨rfl, c7_amended_nvml_handling
    { pynvmlAvailable := true, initFails := false,
      queryFails := true, shutdownFails := false } rfl⟩

/-- C1: if every stage before the training call succeeds and
`trainer.train()` raises a `RuntimeError`, the handler catches it: the
partial model is saved to "./partial_model" and the partially-trained
trainer object is returned; the exception does not propagate. -/
theorem c1_runtime_error_caught (env : Env) (msg : String)
    (hpre : ∀ s, stageIdx s < stageIdx Stage.train → env.fail s = none)
    (htrain : env.fail Stage.train = some (Exc.runtimeError msg))
    (hsave : env.handlerSaveFail = none) :
    Act.savedModel "./partial_model" ∈ (train_with_memory_optimization env).trace ∧
    (∃ t, (train_with_memory_optimization env).result = Except.ok t ∧
      t.interrupted = true) ∧
    ∀ e, (train_with_memory_optimization env).result ≠ Except.error e := by
  have h0 := hpre Stage.optimizeMemory (by decide)
  have h1 := hpre Stage.loadModel (by decide)
  have h2 := hpre Stage.loadTokenizer (by decide)
  have h3 := hpre Stage.buildLoraModel (by decide)
  have h4 := hpre Stage.loadDataset (by decide)
  have h5 := hpre Stage.tokenizeDataset (by decide)
  have h6 := hpre Stage.splitDataset (by decide)
  have h7 := hpre Stage.buildTrainingArgs (by decide)
  have h8 := hpre Stage.buildCollator (by decide)
  have h9 := hpre Stage.buildTrainer (by decide)
  simp [train_with_memory_optimization, h0, h1, h2, h3, h4, h5, h6, h7, h8, h9,
    htrain, hsave]

/-- An environment whose only failure is a `RuntimeError` raised by
`trainer.train()`. -/
def envTrainRE : Env :=
  { env0 with
    fail := fun s =>
      if s = Stage.train then some (Exc.runtimeError "CUDA out of memory") else none }

/-- C1 witness: a concrete run whose training call raises `RuntimeError`. -/
theorem c1_runtime_error_caught_witness :
    (∀ s, stageIdx s < stageIdx Stage.train → envTrainRE.fail s = none) ∧
    envTrainRE.fail Stage.train = some (Exc.runtimeError "CUDA out of memory") ∧
    envTrainRE.handlerSaveFail = none ∧
    (Act.savedModel "./partial_model" ∈ (train_with_memory_optimization envTrainRE).trace ∧
     (∃ t, (train_with_memory_optimization envTrainRE).result = Except.ok t ∧
       t.interrupted = true) ∧
     ∀ e, (train_with_memory_optimization envTrainRE).result ≠ Except.error e) :=
  ⟨fun s hs => by cases s <;> first | rfl | exact absurd hs (by decide),
   rfl, rfl,
   c1_runtime_error_caught envTrainRE "CUDA out of memory"
     (fun s hs => by cases s <;> first | rfl | exact absurd hs (by decide)) rfl rfl⟩

/-- C2: a failure raised at any stage other than a `RuntimeError` from the
training call — earlier stages having succeeded — propagates to the caller
uncaught, and no model save happens on that path. -/
theorem c2_other_failures_propagate (env : Env) (s : Stage) (e : Exc)
    (hfail : env.fail s = some e)
    (hbefore : ∀ s', stageIdx s' < stageIdx s → env.fail s' = none)
    (hnh : s = Stage.train → e.isRuntimeError = false) :
    (train_with_memory_optimization env).result = Except.error e ∧
    ∀ p, Act.savedModel p ∉ (train_with_memory_optimization env).trace := by
  cases s with
  | optimizeMemory =>
    simp [train_with_memory_optimization, hfail]
  | loadModel =>
    have h0 := hbefore Stage.optimizeMemory (by decide)
    simp [train_with_memory_optimization, h0, hfail]
  | loadTokenizer =>
    have h0 := hbefore Stage.optimizeMemory (by decide)
    have h1 := hbefore Stage.loadModel (by decide)
    simp [train_with_memory_optimization, h0, h1, hfail]
  | buildLoraModel =>
    have h0 := hbefore Stage.optimizeMemory (by decide)
    have h1 := hbefore Stage.loadModel (by decide)
    have h2 := hbefore Stage.loadTokenizer (by decide)
    simp [train_with_memory_optimization, h0, h1, h2, hfail]
  | loadDataset =>
    have h0 := hbefore Stage.optimizeMemory (by decide)
    have h1 := hbefore Stage.loadModel (by decide)
    have h2 := hbefore Stage.loadTokenizer (by decide)
    have h3 := hbefore Stage.buildLoraModel (by decide)
    simp [train_with_memory_optimization, h0, h1, h2, h3, hfail]
  | tokenizeDataset =>
    have h0 := hbefore Stage.optimizeMemory (by decide)
    have h1 := hbefore Stage.loadModel (by decide)
    have h2 := hbefore Stage.loadTokenizer (by decide)
    have h3 := hbefore Stage.buildLoraModel (by decide)
    have h4 := hbefore Stage.loadDataset (by decide)
    simp [train_with_memory_optimization, h0, h1, h2, h3, h4, hfail]
  | splitDataset =>
    have h0 := hbefore Stage.optimizeMemory (by decide)
    have h1 := hbefore Stage.loadModel (by decide)
    have h2 := hbefore Stage.loadTokenizer (by decide)
    have h3 := hbefore Stage.buildLoraModel (by decide)
    have h4 := hbefore Stage.loadDataset (by decide)
    have h5 := hbefore Stage.tokenizeDataset (by decide)
    simp [train_with_memory_optimization, h0, h1, h2, h3, h4, h5, hfail]
  | buildTrainingArgs =>
    have h0 := hbefore Stage.optimizeMemory (by decide)
    have h1 := hbefore Stage.loadModel (by decide)
    have h2 := hbefore Stage.loadTokenizer (by decide)
    have h3 := hbefore Stage.buildLoraModel (by decide)
    have h4 := hbefore Stage.loadDataset (by decide)
    have h5 := hbefore Stage.tokenizeDataset (by decide)
    have h6 := hbefore Stage.splitDataset (by decide)
    simp [train_with_memory_optimization, h0, h1, h2, h3, h4, h5, h6, hfail]
  | buildCollator =>
    have h0 := hbefore Stage.optimizeMemory (by decide)
    have h1 := hbefore Stage.loadModel (by decide)
    have h2 := hbefore Stage.loadTokenizer (by decide)
    have h3 := hbefore Stage.buildLoraModel (by decide)
    have h4 := hbefore Stage.loadDataset (by decide)
    have h5 := hbefore Stage.tokenizeDataset (by decide)
    have h6 := hbefore Stage.splitDataset (by decide)
    have h7 := hbefore Stage.buildTrainingArgs (by decide)
    simp [train_with_memory_optimization, h0, h1, h2, h3, h4, h5, h6, h7, hfail]
  | buildTrainer =>
    have h0 := hbefore Stage.optimizeMemory (by decide)
    have h1 := hbefore Stage.loadModel (by decide)
    have h2 := hbefore Stage.loadTokenizer (by decide)
    have h3 := hbefore Stage.buildLoraModel (by decide)
    have h4 := hbefore Stage.loadDataset (by decide)
    have h5 := hbefore Stage.tokenizeDataset (by decide)
    have h6 := hbefore Stage.splitDataset (by decide)
    have h7 := hbefore Stage.buildTrainingArgs (by decide)
    have h8 := hbefore Stage.buildCollator (by decide)
    simp [train_with_memory_optimization, h0, h1, h2, h3, h4, h5, h6, h7, h8, hfail]
  | train =>
    have h0 := hbefore Stage.optimizeMemory (by decide)
    have h1 := hbefore Stage.loadModel (by decide)
    have h2 := hbefore Stage.loadTokenizer (by decide)
    have h3 := hbefore Stage.buildLoraModel (by decide)
    have h4 := hbefore Stage.loadDataset (by decide)
    have h5 := hbefore Stage.tokenizeDataset (by decide)
    have h6 := hbefore Stage.splitDataset (by decide)
    have h7 := hbefore Stage.buildTrainingArgs (by decide)
    have h8 := hbefore Stage.buildCollator (by decide)
    have h9 := hbefore Stage.buildTrainer (by decide)
    cases e with
    | runtimeError m => exact absurd (hnh rfl) (by simp [Exc.isRuntimeError])
    | importError m =>
      simp [train_with_memory_optimization, h0, h1, h2, h3, h4, h5, h6, h7, h8, h9, hfail]
    | nvmlError m =>
      simp [train_with_memory_optimization, h0, h1, h2, h3, h4, h5, h6, h7, h8, h9, hfail]
    | otherError m =>
      simp [train_with_memory_optimization, h0, h1, h2, h3, h4, h5, h6, h7, h8, h9, hfail]
  | saveFinal =>
    have h0 := hbefore Stage.optimizeMemory (by decide)
    have h1 := hbefore Stage.loadModel (by decide)
    have h2 := hbefore Stage.loadTokenizer (by decide)
    have h3 := hbefore Stage.buildLoraModel (by decide)
    have h4 := hbefore Stage.loadDataset (by decide)
    have h5 := hbefore Stage.tokenizeDataset (by decide)
    have h6 := hbefore Stage.splitDataset (by decide)
    have h7 := hbefore Stage.buildTrainingArgs (by decide)
    have h8 := hbefore Stage.buildCollator (by decide)
    have h9 := hbefore Stage.buildTrainer (by decide)
    have h10 := hbefore Stage.train (by decide)
    simp [train_with_memory_optimization, h0, h1, h2, h3, h4, h5, h6, h7, h8, h9,
      h10, hfail]

/-- An environment whose only failure is a dataset-loading error. -/
def envDataFail : Env :=
  { env0 with
    fail := fun s =>
      if s = Stage.loadDataset then some (Exc.otherError "ConnectionError") else none }

/-- C2 witness: a concrete run whose dataset load fails; the error
propagates and nothing is saved. -/
theorem c2_other_failures_propagate_witness :
    envDataFail.fail Stage.loadDataset = some (Exc.otherError "ConnectionError") ∧
    (∀ s', stageIdx s' < stageIdx Stage.loadDataset → envDataFail.fail s' = none) ∧
    (Stage.loadDataset = Stage.train →
      (Exc.otherError "ConnectionError").isRuntimeError = false) ∧
    ((train_with_memory_optimization envDataFail).result =
      Except.error (Exc.otherError "ConnectionError") ∧
     ∀ p, Act.savedModel p ∉ (train_with_memory_optimization envDataFail).trace) :=
  ⟨rfl,
   fun s hs => by cases s <;> first | rfl | exact absurd hs (by decide),
   fun h => absurd h (by decide),
   c2_other_failures_propagate envDataFail Stage.loadDataset
     (Exc.otherError "ConnectionError") rfl
     (fun s hs => by cases s <;> first | rfl | exact absurd hs (by decide))
     (fun h => absurd h (by decide))⟩

/-- C3: with no stage failing, the pipeline executes its stages in exactly
the source order (environment optimization, model load, tokenizer load,
LoRA model construction, dataset load, tokenization, split, training
arguments, data collator, trainer construction, training, final save); and
for every environment whatsoever the executed stages are a prefix of that
order — the control flow is strictly linear, with no reordering or
branching between stages. -/
theorem c3_linear_pipeline (env : Env) (h : ∀ s, env.fail s = none) :
    stagesOf (train_with_memory_optimization env) = stageOrder ∧
    ∀ env' : Env, ∃ k,
      stagesOf (train_with_memory_optimization env') = stageOrder.take k := by
  constructor
  · simp [train_with_memory_optimization, stagesOf, stageOrder,
      h Stage.optimizeMemory, h Stage.loadModel, h Stage.loadTokenizer,
      h Stage.buildLoraModel, h Stage.loadDataset, h Stage.tokenizeDataset,
      h Stage.splitDataset, h Stage.buildTrainingArgs, h Stage.buildCollator,
      h Stage.buildTrainer, h Stage.train, h Stage.saveFinal]
  · intro env'
    cases hf0 : env'.fail Stage.optimizeMemory with
    | some e =>
      exact ⟨1, by
        simp [train_with_memory_optimization, stagesOf, stageOrder, hf0]⟩
    | none =>
    cases hf1 : env'.fail Stage.loadModel with
    | some e =>
      exact ⟨2, by
        simp [train_with_memory_optimization, stagesOf, stageOrder, hf0, hf1]⟩
    | none =>
    cases hf2 : env'.fail Stage.loadTokenizer with
    | some e =>
      exact ⟨3, by
        simp [train_with_memory_optimization, stagesOf, stageOrder, hf0, hf1, hf2]⟩
    | none =>
    cases hf3 : env'.fail Stage.buildLoraModel with
    | some e =>
      exact ⟨4, by
        simp [train_with_memory_optimization, stagesOf, stageOrder, hf0, hf1, hf2,
          hf3]⟩
    | none =>
    cases hf4 : env'.fail Stage.loadDataset with
    | some e =>
      exact ⟨5, by
        simp [train_with_memory_optimization, stagesOf, stageOrder, hf0, hf1, hf2,
          hf3, hf4]⟩
    | none =>
    cases hf5 : env'.fail Stage.tokenizeDataset with
    | some e =>
      exact ⟨6, by
        simp [train_with_memory_optimization, stagesOf, stageOrder, hf0, hf1, hf2,
          hf3, hf4, hf5]⟩
    | none =>
    cases hf6 : env'.fail Stage.splitDataset with
    | some e =>
      exact ⟨7, by
        simp [train_with_memory_optimization, stagesOf, stageOrder, hf0, hf1, hf2,
          hf3, hf4, hf5, hf6]⟩
    | none =>
    cases hf7 : env'.fail Stage.buildTrainingArgs with
    | some e =>
      exact ⟨8, by
        simp [train_with_memory_optimization, stagesOf, stageOrder, hf0, hf1, hf2,
          hf3, hf4, hf5, hf6, hf7]⟩
    | none =>
    cases hf8 : env'.fail Stage.buildCollator with
    | some e =>
      exact ⟨9, by
        simp [train_with_memory_optimization, stagesOf, stageOrder, hf0, hf1, hf2,
          hf3, hf4, hf5, hf6, hf7, hf8]⟩
    | none =>
    cases hf9 : env'.fail Stage.buildTrainer with
    | some e =>
      exact ⟨10, by
        simp [train_with_memory_optimization, stagesOf, stageOrder, hf0, hf1, hf2,
          hf3, hf4, hf5, hf6, hf7, hf8, hf9]⟩
    | none =>
    cases hf10 : env'.fail Stage.train with
    | some e =>
      cases e with
      | runtimeError m =>
        cases hps : env'.handlerSaveFail with
        | some e2 =>
          exact ⟨11, by
            simp [train_with_memory_optimization, stagesOf, stageOrder, hf0, hf1,
              hf2, hf3, hf4, hf5, hf6, hf7, hf8, hf9, hf10, hps]⟩
        | none =>
          exact ⟨11, by
            simp [train_with_memory_optimization, stagesOf, stageOrder, hf0, hf1,
              hf2, hf3, hf4, hf5, hf6, hf7, hf8, hf9, hf10, hps]⟩
      | importError m =>
        exact ⟨11, by
          simp [train_with_memory_optimization, stagesOf, stageOrder, hf0, hf1,
            hf2, hf3, hf4, hf5, hf6, hf7, hf8, hf9, hf10]⟩
      | nvmlError m =>
        exact ⟨11, by
          simp [train_with_memory_optimization, stagesOf, stageOrder, hf0, hf1,
            hf2, hf3, hf4, hf5, hf6, hf7, hf8, hf9, hf10]⟩
      | otherError m =>
        exact ⟨11, by
          simp [train_with_memory_optimization, stagesOf, stageOrder, hf0, hf1,
            hf2, hf3, hf4, hf5, hf6, hf7, hf8, hf9, hf10]⟩
    | none =>
    cases hf11 : env'.fail Stage.saveFinal with
    | some e =>
      exact ⟨12, by
        simp [train_with_memory_optimization, stagesOf, stageOrder, hf0, hf1, hf2,
          hf3, hf4, hf5, hf6, hf7, hf8, hf9, hf10, hf11]⟩
    | none =>
      exact ⟨12, by
        simp [train_with_memory_optimization, stagesOf, stageOrder, hf0, hf1, hf2,
          hf3, hf4, hf5, hf6, hf7, hf8, hf9, hf10, hf11]⟩

/-- C3 witness: the failure-free environment runs all stages in order. -/
theorem c3_linear_pipeline_witness :
    (∀ s, env0.fail s = none) ∧
    (stagesOf (train_with_memory_optimization env0) = stageOrder ∧
     ∀ env' : Env, ∃ k,
       stagesOf (train_with_memory_optimization env') = stageOrder.take k) :=
  ⟨fun _ => rfl, c3_linear_pipeline env0 (fun _ => rfl)⟩

/-- C6: the run requests exactly the hard-coded model id
"meta-llama/Llama-2-7b-hf" and the hard-coded dataset "imdb" with split
"train+test" — those are the only identifiers any run ever requests and
they do not depend on the environment — and the checkpoint, log, and final
save paths are the fixed "./llama2_finetune", "./logs", and
"./final_llama2_model". -/
theorem c6_hardcoded_identifiers (env : Env) (h : ∀ s, env.fail s = none) :
    MODEL_ID = "meta-llama/Llama-2-7b-hf" ∧
    Act.requestedModel "meta-llama/Llama-2-7b-hf" ∈
      (train_with_memory_optimization env).trace ∧
    Act.requestedDataset "imdb" "train+test" ∈
      (train_with_memory_optimization env).trace ∧
    Act.savedModel "./final_llama2_model" ∈
      (train_with_memory_optimization env).trace ∧
    (∀ id, Act.requestedModel id ∈ (train_with_memory_optimization env).trace →
      id = "meta-llama/Llama-2-7b-hf") ∧
    (∀ n sp, Act.requestedDataset n sp ∈ (train_with_memory_optimization env).trace →
      n = "imdb" ∧ sp = "train+test") ∧
    (∀ p, Act.savedModel p ∈ (train_with_memory_optimization env).trace →
      p = "./final_llama2_model") ∧
    create_memory_optimized_training_args.output_dir = "./llama2_finetune" ∧
    create_memory_optimized_training_args.logging_dir = "./logs" := by
  refine ⟨rfl, ?_, ?_, ?_, ?_, ?_, ?_, rfl, rfl⟩ <;>
    simp [train_with_memory_optimization, MODEL_ID,
      h Stage.optimizeMemory, h Stage.loadModel, h Stage.loadTokenizer,
      h Stage.buildLoraModel, h Stage.loadDataset, h Stage.tokenizeDataset,
      h Stage.splitDataset, h Stage.buildTrainingArgs, h Stage.buildCollator,
      h Stage.buildTrainer, h Stage.train, h Stage.saveFinal]

/-- C6 witness: the failure-free environment. -/
theorem c6_hardcoded_identifiers_witness :
    (∀ s, env0.fail s = none) ∧
    (MODEL_ID = "meta-llama/Llama-2-7b-hf" ∧
     Act.requestedModel "meta-llama/Llama-2-7b-hf" ∈
       (train_with_memory_optimization env0).trace ∧
     Act.requestedDataset "imdb" "train+test" ∈
       (train_with_memory_optimization env0).trace ∧
     Act.savedModel "./final_llama2_model" ∈
       (train_with_memory_optimization env0).trace ∧
     (∀ id, Act.requestedModel id ∈ (train_with_memory_optimization env0).trace →
       id = "meta-llama/Llama-2-7b-hf") ∧
     (∀ n sp, Act.requestedDataset n sp ∈ (train_with_memory_optimization env0).trace →
       n = "imdb" ∧ sp = "train+test") ∧
     (∀ p, Act.savedModel p ∈ (train_with_memory_optimization env0).trace →
       p = "./final_llama2_model") ∧
     create_memory_optimized_training_args.output_dir = "./llama2_finetune" ∧
     create_memory_optimized_training_args.logging_dir = "./logs") :=
  ⟨fun _ => rfl, c6_hardcoded_identifiers env0 (fun _ => rfl)⟩
